import Mathlib

/-!
Verification of the srtgo train-reservation backend: a shallow embedding of
the seat-availability policy, reservation validation, poll scheduler,
poll-loop state machine, payment sub-step and passenger building, translated
from the Python sources under `backend/` and `srtgo-web/backend/`.
-/

namespace Srtgo

/-! ## Seat availability (`TrainService.is_seat_available`,
`ReservationService._is_seat_available`)

A train object exposes seat-pool query methods that may raise; a raising
method is embedded as `Except String Bool`. -/

/-- An SRT train candidate as seen by `is_seat_available`: the results of its
seat-pool query methods, each of which may raise. -/
structure SRTTrainQ where
  seat_available : Except String Bool
  general_seat_available : Except String Bool
  special_seat_available : Except String Bool
  reserve_standby_available : Except String Bool

/-- A KTX train candidate as seen by `is_seat_available`. -/
structure KTXTrainQ where
  has_seat : Except String Bool
  has_general_seat : Except String Bool
  has_special_seat : Except String Bool
  has_waiting_list : Except String Bool

/-- The `train` argument of `TrainService.is_seat_available` together with the
`train_type` dispatch ("SRT" vs anything else). -/
inductive TrainObj where
  | srt (t : SRTTrainQ)
  | ktx (t : KTXTrainQ)

/-- Body of the SRT branch of `TrainService.is_seat_available`
(`backend/services/train_service.py`, lines 153-169), before the enclosing
`try/except`. `seat_type` is an optional string; `None` and the empty string
are falsy in Python and take the default branch. -/
def seat_check_srt (t : SRTTrainQ) (seat_type : Option String) : Except String Bool := do
  let avail ← t.seat_available
  if !avail then
    t.reserve_standby_available
  else
    match seat_type with
    | none => t.seat_available
    | some st =>
      if st == "" then t.seat_available
      else if st == "general_first" then t.seat_available
      else if st == "general_only" then t.general_seat_available
      else if st == "special_first" then t.seat_available
      else if st == "special_only" then t.special_seat_available
      else t.seat_available

/-- Body of the KTX branch of `TrainService.is_seat_available`
(`backend/services/train_service.py`, lines 171-187). -/
def seat_check_ktx (t : KTXTrainQ) (seat_type : Option String) : Except String Bool := do
  let avail ← t.has_seat
  if !avail then
    t.has_waiting_list
  else
    match seat_type with
    | none => t.has_seat
    | some st =>
      if st == "" then t.has_seat
      else if st == "general_first" then t.has_seat
      else if st == "general_only" then t.has_general_seat
      else if st == "special_first" then t.has_seat
      else if st == "special_only" then t.has_special_seat
      else t.has_seat

/-- Dispatch on `train_type` inside `TrainService.is_seat_available`. -/
def seat_check (train : TrainObj) (seat_type : Option String) : Except String Bool :=
  match train with
  | .srt t => seat_check_srt t seat_type
  | .ktx t => seat_check_ktx t seat_type

/-- `TrainService.is_seat_available`: the whole body is wrapped in
`try/except Exception: return False`, so any raise from a seat-pool query
method yields `false`. -/
def is_seat_available (train : TrainObj) (seat_type : Option String) : Bool :=
  match seat_check train seat_type with
  | .ok b => b
  | .error _ => false

/-- Modelled from the spec: a `TrainCandidate` exposes general-available,
special-available and standby-available pools (spec section 6), and the primary
(non-standby) pool `seat_available()` has availability exactly when some seat
class does (spec section 4.3: the preferred modes accept any available class).
The library method itself lives outside the embedded sources. This builds the
SRT train whose pools are the three given booleans and whose query methods do
not raise. -/
def okSRTTrain (g s b : Bool) : SRTTrainQ :=
  ⟨.ok (g || s), .ok g, .ok s, .ok b⟩

/-- Modelled from the spec: the KTX counterpart of `okSRTTrain`, with
`has_seat()` available exactly when some class is. -/
def okKTXTrain (g s b : Bool) : KTXTrainQ :=
  ⟨.ok (g || s), .ok g, .ok s, .ok b⟩

/-- The four seat-class preferences of the claim. -/
inductive SeatPref where
  | general_first
  | general_only
  | special_first
  | special_only
deriving DecidableEq

/-- The `seat_type` string the backend stores for each preference. -/
def SeatPref.toStr : SeatPref → String
  | .general_first => "general_first"
  | .general_only => "general_only"
  | .special_first => "special_first"
  | .special_only => "special_only"

/-- The seat-availability policy as the spec words it (section 4.3 / the
32-case truth table of section 8): standby decides when the primary pool is
empty; otherwise the preferred modes accept any class, `general_only` requires
the general pool, `special_only` the special pool. -/
def seatPolicySpec (g s b : Bool) (p : SeatPref) : Bool :=
  if !(g || s) then b
  else
    match p with
    | .general_first => true
    | .special_first => true
    | .general_only => g
    | .special_only => s

/-! ## Reservation records and the backend success path
(`backend/services/reservation_service.py`, `backend/services/train_service.py`) -/

/-- `ReservationStatus` from `backend/models/reservation.py`. -/
inductive ReservationStatus where
  | pending
  | searching
  | reserved
  | paid
  | cancelled
  | failed
  | expired
deriving DecidableEq

/-- The fields of `result_data` written by the backend success path: train
number, message, waiting flag, and the payment outcome keys added by the
auto-payment sub-step. -/
structure ResultData where
  train_number : String
  message : String
  is_waiting : Bool
  payment : Option String
  payment_error : Option String
deriving DecidableEq

/-- The slice of the `Reservation` ORM row that the poll loop reads and
writes. -/
structure ReservationRec where
  status : ReservationStatus
  auto_payment : Bool
  result_data : Option ResultData
  error_message : Option String
deriving DecidableEq

/-- A result object returned by `RailClient.reserve`, as probed by the Python
code: `hasattr(obj, f)` is embedded as the field being `some`, and Python
truthiness of a ticket list as non-emptiness. -/
structure ReserveObjPy where
  tickets : Option (List String)
  is_waiting : Option Bool
  paid : Option Bool
deriving DecidableEq

/-- Stored card credentials (decrypted), as used by the auto-payment step. -/
structure CardCred where
  card_number : String
  card_password : String
  birthday : String
  expire_date : String

/-- `card_type = "J" if len(birthday) == 6 else "S"` from
`TrainService.pay_with_card` (`backend/services/train_service.py`, line 358).
The source comment glosses the codes as `J: 개인` (personal) and `S: 법인`
(business). -/
def card_type (birthday : String) : String :=
  if birthday.length = 6 then "J" else "S"

/-- Card-holder types named by the claim. -/
inductive HolderType where
  | personal
  | business
deriving DecidableEq

/-- Meaning of the card-type codes, per the source comment in
`TrainService.pay_with_card` (`# J: 개인, S: 법인`) and its docstring
(`birthday: Birthday (YYMMDD for personal, YYYYMMDD for business)`). -/
def holderOfCode (c : String) : Option HolderType :=
  if c = "J" then some .personal
  else if c = "S" then some .business
  else none

/-- The card-holder type actually passed for a stored identifier. -/
def inferredHolder (birthday : String) : Option HolderType :=
  holderOfCode (card_type birthday)

/-- `TrainService.pay_with_card` (lines 356-396): computes `card_type` from
the identifier length, calls the rail client (which may raise), and returns
`(result, "Payment successful")` on a normal return or
`(False, "Payment failed: ...")` when the client raises. `clientPay` is the
rail client's `pay_with_card`, applied to the computed card type. -/
def pay_with_card (birthday : String) (clientPay : String → Except String Bool) :
    Bool × String :=
  match clientPay (card_type birthday) with
  | .ok r => (r, "Payment successful")
  | .error e => (false, "Payment failed: " ++ e)

/-- Helper writing the payment outcome keys into `result_data`. -/
def setPayment (rd : ResultData) (p : String) (err : Option String) : ResultData :=
  { rd with payment := some p, payment_error := err }

/-- The backend success path (`poll_for_availability`, lines 209-272): once
`reserve_train` returned success, mark the record `reserved`, store the result
payload, and if auto-payment is enabled and the booking is not a waiting-list
placeholder, attempt payment and record its outcome in the payload. The
record's status is never written again after being set to `reserved`. -/
def backendAfterReserve (rec : ReservationRec) (train_number reserve_msg : String)
    (robj : ReserveObjPy) (card : Option CardCred)
    (clientPay : String → Except String Bool) : ReservationRec :=
  let is_waiting := robj.is_waiting.getD false
  let full_msg :=
    match robj.tickets with
    | some ts =>
      if ts.isEmpty then reserve_msg
      else reserve_msg ++ "\n" ++ String.intercalate "\n" ts
    | none => reserve_msg
  let rd : ResultData := ⟨train_number, full_msg, is_waiting, none, none⟩
  let rec1 : ReservationRec := { rec with status := .reserved, result_data := some rd }
  if rec1.auto_payment && !is_waiting then
    match card with
    | some c =>
      let pr := pay_with_card c.birthday clientPay
      if pr.1 then
        { rec1 with result_data := some (setPayment rd "completed" none) }
      else
        { rec1 with result_data := some (setPayment rd "failed" (some pr.2)) }
    | none => { rec1 with result_data := some (setPayment rd "no_card" none) }
  else rec1

/-- The backend handling of one `reserve_train` outcome
(`poll_for_availability`, line 209): any non-raising reserve call
(`reserve_success` true) takes the success path; otherwise the record is left
alone and the loop moves on. -/
def backendOnReserve (rec : ReservationRec) (reserve_success : Bool)
    (train_number reserve_msg : String) (robj : ReserveObjPy)
    (card : Option CardCred) (clientPay : String → Except String Bool) :
    ReservationRec :=
  if reserve_success then
    backendAfterReserve rec train_number reserve_msg robj card clientPay
  else rec

/-! ## Reservation-success validation
(`srtgo-web/backend/app/services/reservation_service.py`, lines 93-115) -/

/-- `ReservationService._validate_reservation_success`: success iff the result
has a non-empty ticket list; otherwise classify the pending shape. The final
`if reservation:` test is on an object reference, always truthy here. -/
def validate_reservation_success (r : ReserveObjPy) : Bool × String :=
  if !(r.tickets.getD []).isEmpty then (true, "실제 예매 성공 - 티켓 생성됨")
  else if r.is_waiting.getD false then (false, "예약대기 상태")
  else if r.paid.any (fun p => !p) then (false, "결제 대기 상태")
  else (false, "예약 생성됨 - 티켓 대기")

/-- Outcome of one reserve attempt inside the srtgo-web engine loop. -/
inductive WebStepOutcome where
  | reservedOut (msg : String)
  | keepPolling (msg : String)
deriving DecidableEq

/-- Whether the outcome is the success/terminal one. -/
def WebStepOutcome.isReservedOut : WebStepOutcome → Bool
  | .reservedOut _ => true
  | .keepPolling _ => false

/-- The srtgo-web engine's use of the validator (`start_reservation`,
lines 286-314): a validated result terminates the run as reserved, any other
result keeps polling. -/
def webOnReserve (r : ReserveObjPy) : WebStepOutcome :=
  let v := validate_reservation_success r
  if v.1 then .reservedOut v.2 else .keepPolling v.2

/-! ## Randomized pacing (`ReservationService._get_sleep_interval`) -/

/-- `RESERVE_INTERVAL_SHAPE = 4`. -/
def RESERVE_INTERVAL_SHAPE : ℚ := 4

/-- `RESERVE_INTERVAL_SCALE = 0.25`. -/
def RESERVE_INTERVAL_SCALE : ℚ := 1/4

/-- `RESERVE_INTERVAL_MIN = 0.25`. -/
def RESERVE_INTERVAL_MIN : ℚ := 1/4

/-- `_get_sleep_interval`: one draw from
`gammavariate(RESERVE_INTERVAL_SHAPE, RESERVE_INTERVAL_SCALE)` plus the fixed
floor. The gamma draw is embedded as a parameter ranging over the
distribution's support, the nonnegative reals. -/
def get_sleep_interval (gammaDraw : ℚ) : ℚ :=
  gammaDraw + RESERVE_INTERVAL_MIN

/-! ## Poll scheduler (`ReservationService.start_polling` / `stop_polling` /
`is_polling`, `backend/services/reservation_service.py`, lines 492-514) and
the API routes that call them (`backend/api/reservations.py`). -/

/-- `self.active_polls`: a mapping from reservation id to a task handle,
embedded as an association list where the first matching key wins. -/
def dictGet (m : List (Nat × Nat)) (id : Nat) : Option Nat :=
  (m.find? (fun p => p.1 == id)).map (fun p => p.2)

/-- `reservation_id in self.active_polls`. -/
def dictMem (m : List (Nat × Nat)) (id : Nat) : Bool :=
  (dictGet m id).isSome

/-- `self.active_polls[reservation_id] = task`: update-or-insert. -/
def dictSet (m : List (Nat × Nat)) (id v : Nat) : List (Nat × Nat) :=
  (id, v) :: m

/-- `del self.active_polls[reservation_id]`. -/
def dictDel (m : List (Nat × Nat)) (id : Nat) : List (Nat × Nat) :=
  m.filter (fun p => p.1 != id)

/-- `ReservationService.start_polling` (lines 492-503): creates a task
(handle supplied by the runtime) and registers it under the id,
unconditionally, returning the task. No check of an existing entry is made. -/
def svc_start_polling (m : List (Nat × Nat)) (id task : Nat) :
    List (Nat × Nat) × Nat :=
  (dictSet m id task, task)

/-- Errors the API routes raise (as `HTTPException`s). -/
inductive ApiError where
  | notFound
  | invalidStatus
  | alreadyPolling
  | notPolling
deriving DecidableEq

/-- `ReservationService.stop_polling` (lines 505-510): if an entry exists,
cancel the task and remove the entry; otherwise do nothing. The body contains
no raise, so the embedding always returns `.ok`. -/
def svc_stop_polling (m : List (Nat × Nat)) (id : Nat) :
    Except ApiError (List (Nat × Nat)) :=
  .ok (if dictMem m id then dictDel m id else m)

/-- `ReservationService.is_polling` (lines 512-514). -/
def is_polling (m : List (Nat × Nat)) (id : Nat) : Bool :=
  dictMem m id

/-- The `start-polling` route (`backend/api/reservations.py`, lines 76-113):
404 when the record is absent, 400 unless the status is pending or failed,
400 when `is_polling`, else register via the service. -/
def route_start_polling (m : List (Nat × Nat)) (rec : Option ReservationRec)
    (id task : Nat) : Except ApiError (List (Nat × Nat)) :=
  match rec with
  | none => .error .notFound
  | some r =>
    if !(r.status == .pending || r.status == .failed) then .error .invalidStatus
    else if is_polling m id then .error .alreadyPolling
    else .ok (svc_start_polling m id task).1

/-- The `stop-polling` route (`backend/api/reservations.py`, lines 116-151):
404 when the record is absent, 400 when not polling, else stop via the service
and mark the record cancelled. -/
def route_stop_polling (m : List (Nat × Nat)) (rec : Option ReservationRec)
    (id : Nat) : Except ApiError (List (Nat × Nat) × ReservationRec) :=
  match rec with
  | none => .error .notFound
  | some r =>
    if !(is_polling m id) then .error .notPolling
    else
      match svc_stop_polling m id with
      | .ok m2 => .ok (m2, { r with status := .cancelled })
      | .error e => .error e

/-- Whether an embedded call raised. -/
def isErr {ε α : Type} : Except ε α → Bool
  | .error _ => true
  | .ok _ => false

/-! ## The polling loop of `poll_for_availability`
(`backend/services/reservation_service.py`, lines 160-469) -/

/-- What one iteration of the `while True` loop amounts to, after the
timeout check at its top: the refreshed record shows a user cancellation
(return without mutation); a train was found and `reserve_train` succeeded
(success path); a session expiry whose re-login failed (terminal failure);
or anything that continues the loop after the pacing sleep - no usable
train, an expected soldout-class error, a bot-detection clear, a parse or
connection error, or an unexpected error with notification. -/
inductive PollEvent where
  | cancelledEv
  | reservedEv (train_number reserve_msg : String) (robj : ReserveObjPy)
      (card : Option CardCred)
  | reloginFailedEv (msg : String)
  | nothingEv

/-- `max_duration = 24 * 3600` seconds (line 161). -/
def MAX_DURATION : ℚ := 24 * 3600

/-- The timeout error message (line 463). -/
def timeoutMessage : String := "No available trains found within 24 hours"

/-- The loop of `poll_for_availability` over a trace of iterations, each
tagged with the elapsed wall-clock seconds observed at its top (line 169):
first the horizon check (lines 170-172 break, lines 461-464 finalize), then
the iteration's event. An exhausted trace models a run still in progress. -/
def pollLoop (clientPay : String → Except String Bool) :
    ReservationRec → List (ℚ × PollEvent) → ReservationRec
  | rec, [] => rec
  | rec, (t, ev) :: rest =>
    if MAX_DURATION ≤ t then
      { rec with status := .failed, error_message := some timeoutMessage }
    else
      match ev with
      | .cancelledEv => rec
      | .reservedEv tn msg robj card => backendAfterReserve rec tn msg robj card clientPay
      | .reloginFailedEv m =>
        { rec with status := .failed, error_message := some ("Re-login failed: " ++ m) }
      | .nothingEv => pollLoop clientPay rec rest

/-- A trace that reaches the horizon with no success, cancellation or other
terminal event before it: every earlier iteration merely continues. -/
def reachesTimeout : List (ℚ × PollEvent) → Bool
  | [] => false
  | (t, ev) :: rest =>
    if MAX_DURATION ≤ t then true
    else
      match ev with
      | .nothingEv => reachesTimeout rest
      | _ => false

/-- The payment outcome stored in the record's result payload. -/
def payOf (r : ReservationRec) : Option String :=
  match r.result_data with
  | some rd => rd.payment
  | none => none

/-- The payment error stored in the record's result payload. -/
def payErrOf (r : ReservationRec) : Option String :=
  match r.result_data with
  | some rd => rd.payment_error
  | none => none

/-! ## Passenger building
(`backend/services/train_service.py`, lines 211-224, and
`srtgo-web/backend/app/services/reservation_service.py`,
`_create_passengers`, lines 362-407) -/

/-- The five passenger categories. -/
inductive PClass where
  | adult
  | child
  | senior
  | dis13
  | dis46
deriving DecidableEq

/-- Modelled from the spec: a passenger object of the rail library carries its
category and a count (spec section 4.2 step 3a, objects "parameterized by
count"); the library classes themselves are outside the embedded sources, and
a bare constructor call such as `Adult()` denotes a single passenger
(count 1). -/
structure PassObj where
  cls : PClass
  count : Nat
deriving DecidableEq

/-- The `passengers` dict of the backend record: per-category counts, with
`dict.get` defaults adult 1 and 0 elsewhere. -/
structure PassengerCounts where
  adult : Option Nat
  child : Option Nat
  senior : Option Nat
  disability1to3 : Option Nat
  disability4to6 : Option Nat

/-- Passenger-list construction in `TrainService.reserve_train`
(lines 211-224): `for _ in range(count): passenger_list.append(Cls())` per
category - one object per individual passenger. -/
def backendPassengerList (p : PassengerCounts) : List PassObj :=
  List.replicate (p.adult.getD 1) ⟨.adult, 1⟩ ++
  List.replicate (p.child.getD 0) ⟨.child, 1⟩ ++
  List.replicate (p.senior.getD 0) ⟨.senior, 1⟩ ++
  List.replicate (p.disability1to3.getD 0) ⟨.dis13, 1⟩ ++
  List.replicate (p.disability4to6.getD 0) ⟨.dis46, 1⟩

/-- The `passenger_classes` key table of `_create_passengers`. -/
def classOfKey (k : String) : Option PClass :=
  if k = "adult" then some .adult
  else if k = "child" then some .child
  else if k = "senior" then some .senior
  else if k = "disability1to3" then some .dis13
  else if k = "disability4to6" then some .dis46
  else none

/-- The dict key each category uses. -/
def keyOfClass : PClass → String
  | .adult => "adult"
  | .child => "child"
  | .senior => "senior"
  | .dis13 => "disability1to3"
  | .dis46 => "disability4to6"

/-- Distinct elements of a list in first-occurrence order, tracking the keys
already seen: the iteration order of a Python dict built by
`counts[key] = counts.get(key, 0) + 1`. -/
def firstDedupAux : List String → List String → List String
  | [], _ => []
  | a :: l, seen =>
    if a ∈ seen then firstDedupAux l seen
    else a :: firstDedupAux l (a :: seen)

/-- Distinct elements of a list in first-occurrence order. -/
def firstDedup (l : List String) : List String :=
  firstDedupAux l []

/-- ASCII lowercasing of one character, the effect of Python `str.lower()` on
the ASCII category names this code receives. -/
def lowerChar (c : Char) : Char :=
  if 'A' ≤ c ∧ c ≤ 'Z' then Char.ofNat (c.toNat + 32) else c

/-- `passenger_str.lower()`. -/
def lowerStr (s : String) : String :=
  ⟨s.data.map lowerChar⟩

/-- `key = passenger_str.lower()` applied across the input list. -/
def lowerKeys (ps : List String) : List String :=
  ps.map lowerStr

/-- The loop body of `_create_passengers` (lines 401-404): for a distinct key
`k` with its occurrence count taken over `low`, emit
`passenger_classes[k](count)` when `count > 0` and the key is recognized. -/
def passOfKey (low : List String) (k : String) : Option PassObj :=
  match classOfKey k with
  | some c =>
    if 0 < low.count k then some ⟨c, low.count k⟩
    else none
  | none => none

/-- `ReservationService._create_passengers` (lines 362-407): count the
lowercased category keys of the input list, then emit one object per distinct
key - in first-insertion order - whose class is recognized and whose count is
positive, parameterized by that count. -/
def create_passengers (ps : List String) : List PassObj :=
  (firstDedup (lowerKeys ps)).filterMap (passOfKey (lowerKeys ps))

/-! ## The srtgo-web seat-availability variant
(`srtgo-web/backend/app/services/reservation_service.py`,
`_is_seat_available`, lines 68-91): uppercase seat-type strings, no
try/except, and a trailing else that means SPECIAL_ONLY. -/

/-- The SRT branch of the web `_is_seat_available`. -/
def web_seat_check_srt (t : SRTTrainQ) (seat_type : String) : Except String Bool := do
  let avail ← t.seat_available
  if !avail then t.reserve_standby_available
  else if seat_type == "GENERAL_FIRST" || seat_type == "SPECIAL_FIRST" then
    t.seat_available
  else if seat_type == "GENERAL_ONLY" then t.general_seat_available
  else t.special_seat_available

/-- The KTX branch of the web `_is_seat_available`. -/
def web_seat_check_ktx (t : KTXTrainQ) (seat_type : String) : Except String Bool := do
  let avail ← t.has_seat
  if !avail then t.has_waiting_list
  else if seat_type == "GENERAL_FIRST" || seat_type == "SPECIAL_FIRST" then
    t.has_seat
  else if seat_type == "GENERAL_ONLY" then t.has_general_seat
  else t.has_special_seat

/-- The seat-type string the web variant stores for each preference. -/
def SeatPref.toUpperStr : SeatPref → String
  | .general_first => "GENERAL_FIRST"
  | .general_only => "GENERAL_ONLY"
  | .special_first => "SPECIAL_FIRST"
  | .special_only => "SPECIAL_ONLY"

/-! ## Theorems -/

/-- C1: for every train candidate (any combination of general, special and
standby pool availabilities) and every seat-class preference, both
`is_seat_available` implementations return: standby availability when the
primary pool is empty; otherwise true for the two preferred modes, the general
pool for general-only, and the special pool for special-only - all 32 cases,
for the SRT and KTX branches of the backend and srtgo-web variants alike. -/
theorem seat_availability_truth_table :
    ∀ (g s b : Bool) (p : SeatPref),
      is_seat_available (.srt (okSRTTrain g s b)) (some p.toStr) = seatPolicySpec g s b p ∧
      is_seat_available (.ktx (okKTXTrain g s b)) (some p.toStr) = seatPolicySpec g s b p ∧
      web_seat_check_srt (okSRTTrain g s b) p.toUpperStr = .ok (seatPolicySpec g s b p) ∧
      web_seat_check_ktx (okKTXTrain g s b) p.toUpperStr = .ok (seatPolicySpec g s b p) := by
  intro g s b p
  cases p <;> cases g <;> cases s <;> cases b <;> exact ⟨rfl, rfl, rfl, rfl⟩

/-- C10: `is_seat_available` is total at its interface: whenever the
underlying seat-pool queries raise, the enclosing `try/except` turns the
result into `false` instead of propagating. -/
theorem seat_check_error_yields_false (train : TrainObj) (st : Option String)
    (e : String) (h : seat_check train st = .error e) :
    is_seat_available train st = false := by
  unfold is_seat_available
  rw [h]

/-- A train whose first seat-pool query raises. -/
def failingSRTTrain : SRTTrainQ :=
  ⟨.error "connection reset", .ok true, .ok true, .ok true⟩

/-- Witness for C10 at a concrete raising train. -/
theorem seat_check_error_yields_false_witness :
    seat_check (.srt failingSRTTrain) (some "general_only") = .error "connection reset" ∧
    is_seat_available (.srt failingSRTTrain) (some "general_only") = false :=
  ⟨rfl, seat_check_error_yields_false _ _ _ rfl⟩

/-- C7 counterexample: a 6-digit identifier is mapped to card type "J", which
the source comments and docstring identify as the personal holder type, not
the business one as the claim states. -/
theorem card_holder_6digit_cex :
    inferredHolder "700101" = some HolderType.personal ∧
    "700101".length = 6 ∧
    some HolderType.personal ≠ some HolderType.business := by
  exact ⟨rfl, rfl, by decide⟩

/-- C7 (amended): the holder type passed to the rail client is personal ("J")
for a 6-digit stored identifier and business ("S") for any other length. -/
theorem card_holder_type_of_length (b : String) :
    inferredHolder b =
      some (if b.length = 6 then HolderType.personal else HolderType.business) := by
  unfold inferredHolder card_type holderOfCode
  by_cases h : b.length = 6 <;> simp [h]

/-- C9: every inter-attempt sleep interval is the gamma draw plus the fixed
floor, hence at least the floor 0.25 s, and shape times scale plus the floor
is 1.25 s. -/
theorem sleep_interval_bounds (g : ℚ) (hg : 0 ≤ g) :
    get_sleep_interval g = g + RESERVE_INTERVAL_MIN ∧
    RESERVE_INTERVAL_MIN ≤ get_sleep_interval g ∧
    RESERVE_INTERVAL_MIN = 1/4 ∧
    RESERVE_INTERVAL_SHAPE * RESERVE_INTERVAL_SCALE + RESERVE_INTERVAL_MIN = 5/4 := by
  refine ⟨rfl, ?_, rfl, by norm_num [RESERVE_INTERVAL_SHAPE, RESERVE_INTERVAL_SCALE,
    RESERVE_INTERVAL_MIN]⟩
  unfold get_sleep_interval
  linarith

/-- Witness for C9 at the draw 1. -/
theorem sleep_interval_bounds_witness :
    (0 : ℚ) ≤ 1 ∧
    (get_sleep_interval 1 = 1 + RESERVE_INTERVAL_MIN ∧
     RESERVE_INTERVAL_MIN ≤ get_sleep_interval 1 ∧
     RESERVE_INTERVAL_MIN = 1/4 ∧
     RESERVE_INTERVAL_SHAPE * RESERVE_INTERVAL_SCALE + RESERVE_INTERVAL_MIN = 5/4) :=
  ⟨by norm_num, sleep_interval_bounds 1 (by norm_num)⟩

/-- C3 counterexample: with an entry for id 1 registered, the service's
`start_polling` neither fails nor preserves the entry - it returns normally
and the id now resolves to the new task. -/
theorem start_polling_overwrites_cex :
    dictMem [(1, 10)] 1 = true ∧
    (svc_start_polling [(1, 10)] 1 11).1 = [(1, 11), (1, 10)] ∧
    dictGet (svc_start_polling [(1, 10)] 1 11).1 1 = some 11 ∧
    (10 : Nat) ≠ 11 := by decide

/-- C3 (amended): the duplicate-poll guard lives in the API route, not the
service: when an entry for the id exists the `start-polling` route fails
(400, already polling - or an invalid-status error, since an actively polled
record is `searching`) and registers nothing, while the bare service call
always registers a fresh task over the old entry. -/
theorem start_polling_guard (m : List (Nat × Nat)) (r : ReservationRec)
    (id task : Nat) (h : dictMem m id = true) :
    isErr (route_start_polling m (some r) id task) = true ∧
    dictGet (svc_start_polling m id task).1 id = some task := by
  constructor
  · cases hb : (r.status == ReservationStatus.pending || r.status == ReservationStatus.failed) <;>
      simp [route_start_polling, is_polling, hb, h, isErr]
  · simp [svc_start_polling, dictSet, dictGet, List.find?]

/-- Witness for the amended C3 at a concrete occupied map. -/
theorem start_polling_guard_witness :
    dictMem [(1, 10)] 1 = true ∧
    (isErr (route_start_polling [(1, 10)]
        (some ⟨ReservationStatus.pending, false, none, none⟩) 1 11) = true ∧
     dictGet (svc_start_polling [(1, 10)] 1 11).1 1 = some 11) :=
  ⟨by decide, start_polling_guard _ _ _ _ (by decide)⟩

/-- C4 counterexample: with no entry for id 1, the service's `stop_polling`
does not fail with a not-polling error - it returns normally (with the map
unchanged). -/
theorem stop_polling_no_error_cex :
    svc_stop_polling [] 1 = .ok [] ∧
    isErr (svc_stop_polling [] 1) = false :=
  ⟨rfl, rfl⟩

/-- C4 (amended): on an id with no active poll the service's `stop_polling`
is a silent no-op - no error, map and records untouched - while the
not-polling failure is raised by the `stop-polling` API route, which then
leaves map and record unchanged. -/
theorem stop_polling_amended (m : List (Nat × Nat)) (r : ReservationRec)
    (id : Nat) (h : dictMem m id = false) :
    svc_stop_polling m id = .ok m ∧
    route_stop_polling m (some r) id = .error .notPolling := by
  constructor
  · simp [svc_stop_polling, h]
  · simp [route_stop_polling, is_polling, h]

/-- Witness for the amended C4 at the empty map. -/
theorem stop_polling_amended_witness :
    dictMem [] 3 = false ∧
    (svc_stop_polling [] 3 = .ok [] ∧
     route_stop_polling [] (some ⟨ReservationStatus.searching, false, none, none⟩) 3 =
       .error .notPolling) :=
  ⟨by decide, stop_polling_amended _ _ _ (by decide)⟩

/-- A searching record with no payload, as the poll loop sees it. -/
def recSearching : ReservationRec := ⟨.searching, false, none, none⟩

/-- A payment client that never raises (irrelevant to the call). -/
def okPay : String → Except String Bool := fun _ => .ok true

/-- C2 counterexample: the backend engine marks the record reserved for any
non-raising reserve result, including one with an empty ticket list and
waiting-flag false, which the claim says must not transition to reserved. -/
theorem backend_reserves_empty_result_cex :
    (⟨some [], some false, none⟩ : ReserveObjPy).tickets = some [] ∧
    (⟨some [], some false, none⟩ : ReserveObjPy).is_waiting = some false ∧
    (backendOnReserve recSearching true "101" "SRT reservation"
        ⟨some [], some false, none⟩ none okPay).status = .reserved ∧
    recSearching.status ≠ ReservationStatus.reserved := by
  exact ⟨rfl, rfl, rfl, by decide⟩

/-- C2 (amended): the srtgo-web engine validates a reserve result and
terminates as reserved exactly when the ticket list is non-empty - an empty
ticket list (waiting or not) keeps polling; the backend engine lacks this
guard and marks the record reserved for any non-raising reserve result. -/
theorem web_reserved_iff_nonempty_tickets (r : ReserveObjPy) :
    (webOnReserve r).isReservedOut = !(r.tickets.getD []).isEmpty ∧
    ((validate_reservation_success r).1 = true ↔ r.tickets.getD [] ≠ []) := by
  have hv : (validate_reservation_success r).1 = !(r.tickets.getD []).isEmpty := by
    unfold validate_reservation_success
    cases hE : (r.tickets.getD []).isEmpty
    · simp [hE]
    · simp [hE]
      split
      · rfl
      · split <;> rfl
  constructor
  · simp only [webOnReserve]
    rw [hv]
    cases hE : (r.tickets.getD []).isEmpty <;>
      simp [hE, WebStepOutcome.isReservedOut]
  · rw [hv]
    cases hE : (r.tickets.getD []).isEmpty <;>
      simp_all [List.isEmpty_iff]

/-- A record with auto-payment enabled, as the loop sees it. -/
def recAutoPay : ReservationRec := ⟨.searching, true, none, none⟩

/-- Stored card credentials with a 6-digit birthday. -/
def testCard : CardCred := ⟨"1111222233334444", "12", "700101", "2712"⟩

/-- A payment client that raises on every call. -/
def declinePay : String → Except String Bool := fun _ => .error "declined"

/-- C6: with auto-payment enabled and a genuine (non-waitlist) reservation,
a raising payment call leaves the status reserved and records the failed
payment outcome with its error text in the result payload. -/
theorem payment_failure_keeps_reserved (rec : ReservationRec) (tn msg : String)
    (robj : ReserveObjPy) (c : CardCred) (clientPay : String → Except String Bool)
    (e : String)
    (hauto : rec.auto_payment = true)
    (hw : robj.is_waiting.getD false = false)
    (hpay : clientPay (card_type c.birthday) = .error e) :
    (backendAfterReserve rec tn msg robj (some c) clientPay).status = .reserved ∧
    payOf (backendAfterReserve rec tn msg robj (some c) clientPay) = some "failed" ∧
    payErrOf (backendAfterReserve rec tn msg robj (some c) clientPay) =
      some ("Payment failed: " ++ e) := by
  simp [backendAfterReserve, pay_with_card, hauto, hw, hpay, setPayment, payOf, payErrOf]

/-- Witness for C6 at a concrete declined payment. -/
theorem payment_failure_keeps_reserved_witness :
    (recAutoPay.auto_payment = true ∧
     (⟨some ["t1"], some false, none⟩ : ReserveObjPy).is_waiting.getD false = false ∧
     declinePay (card_type testCard.birthday) = .error "declined") ∧
    ((backendAfterReserve recAutoPay "301" "ok" ⟨some ["t1"], some false, none⟩
        (some testCard) declinePay).status = .reserved ∧
     payOf (backendAfterReserve recAutoPay "301" "ok" ⟨some ["t1"], some false, none⟩
        (some testCard) declinePay) = some "failed" ∧
     payErrOf (backendAfterReserve recAutoPay "301" "ok" ⟨some ["t1"], some false, none⟩
        (some testCard) declinePay) = some ("Payment failed: " ++ "declined")) :=
  ⟨⟨rfl, rfl, rfl⟩,
    payment_failure_keeps_reserved recAutoPay "301" "ok" ⟨some ["t1"], some false, none⟩
      testCard declinePay "declined" rfl rfl rfl⟩

/-- C5: a poll run whose trace reaches the 24-hour horizon with every earlier
iteration merely continuing ends with status failed, the timeout-specific
error message, and no result payload. -/
theorem poll_timeout_sets_failed (clientPay : String → Except String Bool)
    (rec : ReservationRec) (tr : List (ℚ × PollEvent))
    (h0 : rec.result_data = none)
    (h : reachesTimeout tr = true) :
    (pollLoop clientPay rec tr).status = .failed ∧
    (pollLoop clientPay rec tr).error_message = some timeoutMessage ∧
    (pollLoop clientPay rec tr).result_data = none := by
  induction tr with
  | nil => simp [reachesTimeout] at h
  | cons hd rest ih =>
    obtain ⟨t, ev⟩ := hd
    by_cases ht : MAX_DURATION ≤ t
    · simp [pollLoop, ht, h0]
    · rcases ev with _ | ⟨tn, msg, robj, card⟩ | m | _
      · simp [reachesTimeout, ht] at h
      · simp [reachesTimeout, ht] at h
      · simp [reachesTimeout, ht] at h
      · simp only [reachesTimeout, if_neg ht] at h
        simpa [pollLoop, ht] using ih h

/-- A trace that merely continues once and then hits the horizon. -/
def timeoutTrace : List (ℚ × PollEvent) := [(0, .nothingEv), (86400, .nothingEv)]

/-- Witness for C5 on a concrete timed-out trace. -/
theorem poll_timeout_sets_failed_witness :
    (recSearching.result_data = none ∧ reachesTimeout timeoutTrace = true) ∧
    ((pollLoop okPay recSearching timeoutTrace).status = .failed ∧
     (pollLoop okPay recSearching timeoutTrace).error_message = some timeoutMessage ∧
     (pollLoop okPay recSearching timeoutTrace).result_data = none) :=
  ⟨⟨rfl, by norm_num [reachesTimeout, timeoutTrace, MAX_DURATION]⟩,
    poll_timeout_sets_failed okPay recSearching timeoutTrace rfl
      (by norm_num [reachesTimeout, timeoutTrace, MAX_DURATION])⟩

/-! ## Lemmas about `firstDedup` and `passOfKey` -/

theorem mem_firstDedupAux (x : String) :
    ∀ (l seen : List String), x ∈ firstDedupAux l seen ↔ x ∈ l ∧ x ∉ seen := by
  intro l
  induction l with
  | nil => simp [firstDedupAux]
  | cons a l ih =>
    intro seen
    by_cases ha : a ∈ seen
    · rw [firstDedupAux, if_pos ha, ih]
      constructor
      · rintro ⟨hx, hs⟩
        exact ⟨List.mem_cons_of_mem _ hx, hs⟩
      · rintro ⟨hx, hs⟩
        rcases List.mem_cons.mp hx with rfl | hx
        · exact absurd ha hs
        · exact ⟨hx, hs⟩
    · rw [firstDedupAux, if_neg ha]
      simp only [List.mem_cons, ih]
      by_cases hxa : x = a
      · subst hxa
        simp [ha]
      · simp [hxa]

theorem mem_firstDedup (x : String) (l : List String) :
    x ∈ firstDedup l ↔ x ∈ l := by
  rw [firstDedup, mem_firstDedupAux]
  simp

theorem nodup_firstDedupAux :
    ∀ (l seen : List String), (firstDedupAux l seen).Nodup := by
  intro l
  induction l with
  | nil => intro seen; simp [firstDedupAux]
  | cons a l ih =>
    intro seen
    by_cases ha : a ∈ seen
    · rw [firstDedupAux, if_pos ha]
      exact ih seen
    · rw [firstDedupAux, if_neg ha]
      refine List.nodup_cons.mpr ⟨?_, ih _⟩
      intro hmem
      rw [mem_firstDedupAux] at hmem
      exact hmem.2 (List.mem_cons_self _ _)

theorem nodup_firstDedup (l : List String) : (firstDedup l).Nodup :=
  nodup_firstDedupAux l []

theorem classOfKey_keyOfClass (c : PClass) : classOfKey (keyOfClass c) = some c := by
  cases c <;> rfl

theorem eq_keyOfClass_of_classOfKey {k : String} {c : PClass}
    (h : classOfKey k = some c) : k = keyOfClass c := by
  unfold classOfKey at h
  split_ifs at h with h1 h2 h3 h4 h5 <;> (injection h with h; subst h; assumption)

theorem passOfKey_spec {low : List String} {k : String} {p : PassObj}
    (h : passOfKey low k = some p) :
    k = keyOfClass p.cls ∧ p.count = low.count k ∧ 0 < low.count k := by
  unfold passOfKey at h
  split at h
  next c hck =>
    split at h
    next hc =>
      injection h with h
      subst h
      exact ⟨eq_keyOfClass_of_classOfKey hck, rfl, hc⟩
    next hc => cases h
  next hck => cases h

/-- C8 counterexample: the backend variant builds one object per individual
passenger - counts (adult 2, child 1) yield three singleton objects, not one
aggregated object per non-zero category (which would be two objects). -/
theorem backend_per_individual_cex :
    backendPassengerList ⟨some 2, some 1, some 0, some 0, some 0⟩ =
      [⟨.adult, 1⟩, ⟨.adult, 1⟩, ⟨.child, 1⟩] ∧
    ((backendPassengerList ⟨some 2, some 1, some 0, some 0, some 0⟩).filter
      (fun p => p.cls == PClass.adult)).length = 2 ∧
    (2 : Nat) ≠ 1 := by decide

/-- C8 (amended): the srtgo-web `_create_passengers` aggregates - for every
input list, the built list holds exactly one object per category with a
positive occurrence count, parameterized by that count - while the backend
`reserve_train` builds one object per individual passenger. -/
theorem create_passengers_aggregated (ps : List String) (c : PClass) :
    ((create_passengers ps).filter (fun p => p.cls == c)).length =
      (if 0 < (lowerKeys ps).count (keyOfClass c) then 1 else 0) ∧
    ∀ p ∈ create_passengers ps,
      0 < p.count ∧ p.count = (lowerKeys ps).count (keyOfClass p.cls) := by
  have hmem : ∀ p : PassObj, p ∈ create_passengers ps ↔
      ∃ k, k ∈ firstDedup (lowerKeys ps) ∧ passOfKey (lowerKeys ps) k = some p := by
    intro p
    simp [create_passengers, List.mem_filterMap]
  have part2 : ∀ p ∈ create_passengers ps,
      0 < p.count ∧ p.count = (lowerKeys ps).count (keyOfClass p.cls) := by
    intro p hp
    obtain ⟨k, hk, hf⟩ := (hmem p).mp hp
    obtain ⟨hkey, hcnt, hposk⟩ := passOfKey_spec hf
    subst hkey
    exact ⟨by rw [hcnt]; exact hposk, hcnt⟩
  refine ⟨?_, part2⟩
  by_cases hpos : 0 < (lowerKeys ps).count (keyOfClass c)
  · rw [if_pos hpos]
    have hnodup : (create_passengers ps).Nodup := by
      refine List.Nodup.filterMap ?_ (nodup_firstDedup _)
      intro a b q hb hb2
      rw [Option.mem_def] at hb hb2
      obtain ⟨ha, _, _⟩ := passOfKey_spec hb
      obtain ⟨ha2, _, _⟩ := passOfKey_spec hb2
      rw [ha, ha2]
    have hall : ∀ q ∈ (create_passengers ps).filter (fun p => p.cls == c),
        q = (⟨c, (lowerKeys ps).count (keyOfClass c)⟩ : PassObj) := by
      intro q hq
      rw [List.mem_filter] at hq
      obtain ⟨hq1, hq2⟩ := hq
      have hcq : q.cls = c := by simpa using hq2
      obtain ⟨_, h2⟩ := part2 q hq1
      cases q with
      | mk qc qn =>
        dsimp at hcq h2
        subst hcq
        rw [h2]
    have hfil_nodup : ((create_passengers ps).filter (fun p => p.cls == c)).Nodup :=
      List.Nodup.filter _ hnodup
    have hmem_pc : (⟨c, (lowerKeys ps).count (keyOfClass c)⟩ : PassObj) ∈
        (create_passengers ps).filter (fun p => p.cls == c) := by
      rw [List.mem_filter]
      refine ⟨?_, by simp⟩
      rw [hmem]
      refine ⟨keyOfClass c, ?_, ?_⟩
      · rw [mem_firstDedup]
        exact List.count_pos_iff.mp hpos
      · unfold passOfKey
        rw [classOfKey_keyOfClass]
        simp [hpos]
    have hge : 0 < ((create_passengers ps).filter (fun p => p.cls == c)).length :=
      List.length_pos_of_mem hmem_pc
    have hle : ((create_passengers ps).filter (fun p => p.cls == c)).length ≤ 1 := by
      rcases hfl : (create_passengers ps).filter (fun p => p.cls == c) with
        _ | ⟨q1, _ | ⟨q2, rest⟩⟩
      · simp [hfl]
      · simp [hfl]
      · exfalso
        have e1 : q1 = (⟨c, (lowerKeys ps).count (keyOfClass c)⟩ : PassObj) :=
          hall q1 (by rw [hfl]; exact List.mem_cons_self _ _)
        have e2 : q2 = (⟨c, (lowerKeys ps).count (keyOfClass c)⟩ : PassObj) :=
          hall q2 (by rw [hfl]; exact List.mem_cons_of_mem _ (List.mem_cons_self _ _))
        have hnd := hfil_nodup
        rw [hfl, List.nodup_cons] at hnd
        exact hnd.1 (by rw [e1, e2]; exact List.mem_cons_self _ _)
    omega
  · rw [if_neg hpos]
    rw [List.length_eq_zero, List.filter_eq_nil_iff]
    intro q hq hqc
    have hcq : q.cls = c := by simpa using hqc
    obtain ⟨h1, h2⟩ := part2 q hq
    rw [hcq] at h2
    rw [h2] at h1
    exact hpos h1

/-- Application of the amended C8 theorem at a concrete passenger list. -/
theorem create_passengers_aggregated_witness :
    ((create_passengers ["Adult", "Adult", "Child"]).filter
        (fun p => p.cls == PClass.adult)).length =
      (if 0 < (lowerKeys ["Adult", "Adult", "Child"]).count (keyOfClass PClass.adult)
       then 1 else 0) ∧
    ∀ p ∈ create_passengers ["Adult", "Adult", "Child"],
      0 < p.count ∧
        p.count = (lowerKeys ["Adult", "Adult", "Child"]).count (keyOfClass p.cls) :=
  create_passengers_aggregated ["Adult", "Adult", "Child"] PClass.adult

end Srtgo
